import Mathlib

/-!
Verification of the audio scheduling and synthesis core of Note-Forge.

The definitions below are shallow embeddings of the TypeScript source:
  - audio-engine.ts          (class AudioEngine)
  - mode-random.tsx          (RandomMode scheduling loop, restart effects)
  - mode-patterns.tsx        (PatternsMode startPlayback and stopPlayback)
  - mode-progressions.tsx    (ProgressionsMode chord loop)
  - musical-note-generator.tsx (inline global metronome, switchTab)
  - unnamed part_001         (GlobalMetronome component with accent logic)

Times, frequencies and gains are rationals; the scheduling state is passed
explicitly; methods that can throw are embedded into Except.
-/

namespace NoteForge

/-- Repetitions per 4-beat bar for a subdivision setting, from the
getRepetitionsPerBar helper that appears identically in mode-random.tsx,
mode-patterns.tsx and mode-progressions.tsx: quarter=4, quavers=8,
triplets=12, semiquavers=16, default 4. -/
def getRepetitionsPerBar (subdivision : String) : ℕ :=
  if subdivision = "1" then 4
  else if subdivision = "2" then 8
  else if subdivision = "3" then 12
  else if subdivision = "4" then 16
  else 4

/-- Time between successive subdivision ticks:
noteInterval = (60 / bpm) / (repetitionsPerBar / 4), as computed in each
mode file (chordInterval in mode-progressions.tsx). -/
def noteInterval (bpm : ℚ) (subdivision : String) : ℚ :=
  (60 / bpm) / ((getRepetitionsPerBar subdivision : ℚ) / 4)

namespace AudioEngine

/-- AudioEngine.getSwingDelay from audio-engine.ts lines 375-386: no delay
when swing is off; off-beat (odd-indexed) ticks are delayed by one third of
the eighth-note interval; on-beat ticks stay on the beat. -/
def getSwingDelay (noteIndex : ℕ) (swingEnabled : Bool) (eighthNoteInterval : ℚ) : ℚ :=
  if swingEnabled = false then 0
  else if noteIndex % 2 = 1 then eighthNoteInterval / 3
  else 0

end AudioEngine

/-- JavaScript truthiness of a number (0 is falsy, any other value truthy);
relevant because unnamed part_006 passes the numeric 0-100 swing setting
where getSwingDelay declares a boolean. -/
def jsTruthy (x : ℚ) : Bool :=
  if x = 0 then false else true

/-- getSwingDelay as invoked with a numeric swing value (unnamed part_006
line 176): the number is coerced to a boolean by truthiness. -/
def getSwingDelayNumeric (noteIndex : ℕ) (swing : ℚ) (eighthNoteInterval : ℚ) : ℚ :=
  AudioEngine.getSwingDelay noteIndex (jsTruthy swing) eighthNoteInterval

/-- Playback settings object shared by the modes
(playback field of a mode's settings in the schema). -/
structure PlaybackSettings where
  isPlaying : Bool
  bpm : ℚ
  subdivision : String
  swing : ℚ
deriving DecidableEq, Repr

/-- Scheduling cursor of one playing mode: the local variables
currentNoteIndex, playbackRepetition and nextNoteTime of startPlayback. -/
structure SchedulerState where
  currentNoteIndex : ℕ
  playbackRepetition : ℕ
  nextNoteTime : ℚ
deriving DecidableEq, Repr

/-- The repetition-count advance common to the scheduleNote bodies of
mode-random.tsx, mode-patterns.tsx and mode-progressions.tsx: increment
playbackRepetition; once it reaches repetitionsPerBar, step the note index
forward modulo the sequence length and reset the repetition count. -/
def noteAdvance (reps len : ℕ) (idxRep : ℕ × ℕ) : ℕ × ℕ :=
  if reps ≤ idxRep.2 + 1 then ((idxRep.1 + 1) % len, 0) else (idxRep.1, idxRep.2 + 1)

/-- startPlayback of the PatternsMode player (mode-patterns.tsx lines
101-113).  After the empty-pattern/missing-context guard it immediately
calls audioEngine.enablePlayback() - a method that does not exist on
AudioEngine - so every attempt to start patterns playback throws a
TypeError before the scheduleNote loop is ever entered: no patterns tick
is ever scheduled. -/
def patternsStartPlayback (patternLength : ℕ) (audioContext : Option ℚ) : Except String Unit :=
  if patternLength = 0 ∨ audioContext = none then .ok ()
  else .error "audioEngine.enablePlayback is not a function"

/-- One scheduleNote call of the RandomMode player (mode-random.tsx lines
129-198).  Returns none when the guard at the top returns early, and an
error when the swing branch is taken: that branch calls
AudioEngine.applySwing, a method that does not exist on AudioEngine, so at
run time it raises a TypeError.  Otherwise returns the new cursor state and
the timestamp the note was scheduled at. -/
def randomStep (s : PlaybackSettings) (len : ℕ) (st : SchedulerState) :
    Except String (Option (SchedulerState × ℚ)) :=
  if s.isPlaying = false ∨ len = 0 then .ok none
  else
    let reps := getRepetitionsPerBar s.subdivision
    let idx0 := if len ≤ st.currentNoteIndex then 0 else st.currentNoteIndex
    let playTime := st.nextNoteTime
    let idxRep := noteAdvance reps len (idx0, st.playbackRepetition)
    if s.subdivision = "2" ∧ s.swing ≠ 50 then
      .error "AudioEngine.applySwing is not a function"
    else
      .ok (some (⟨idxRep.1, idxRep.2, st.nextNoteTime + noteInterval s.bpm s.subdivision⟩, playTime))

/-- The RandomMode scheduling loop run for n ticks; the initial
nextNoteTime is audioContext.currentTime (mode-random.tsx line 127).  A
tick that returns early or throws leaves the cursor unchanged. -/
def randomRun (s : PlaybackSettings) (len : ℕ) (t0 : ℚ) : ℕ → SchedulerState
  | 0 => ⟨0, 0, t0⟩
  | n + 1 =>
    match randomStep s len (randomRun s len t0 n) with
    | .ok (some (st, _)) => st
    | _ => randomRun s len t0 n

/-- Timestamp scheduled by the RandomMode player at tick n (0 when the tick
schedules nothing). -/
def randomPlayTimeAt (s : PlaybackSettings) (len : ℕ) (t0 : ℚ) (n : ℕ) : ℚ :=
  match randomStep s len (randomRun s len t0 n) with
  | .ok (some (_, t)) => t
  | _ => 0

/-- Fire times of the ProgressionsMode chord loop (mode-progressions.tsx
lines 85-121) under exact timers: each scheduleChord call re-reads the
settings and re-arms setTimeout with chordInterval seconds. -/
def progressionsFireTime (s : PlaybackSettings) (t0 : ℚ) : ℕ → ℚ
  | 0 => t0
  | n + 1 => progressionsFireTime s t0 n + noteInterval s.bpm s.subdivision

/-! Arithmetic helper lemmas for the cursor closed forms. -/

theorem getRepetitionsPerBar_pos (s : String) : 0 < getRepetitionsPerBar s := by
  unfold getRepetitionsPerBar
  split_ifs <;> norm_num

theorem noteAdvance_closed (reps len n : ℕ) (hreps : 0 < reps) :
    noteAdvance reps len (n / reps % len, n % reps) = ((n + 1) / reps % len, (n + 1) % reps) := by
  have hr : n % reps < reps := Nat.mod_lt _ hreps
  have hdm : reps * (n / reps) + n % reps = n := Nat.div_add_mod n reps
  unfold noteAdvance
  by_cases hc : reps ≤ n % reps + 1
  · have heq : n % reps + 1 = reps := le_antisymm hr hc
    have hn1 : n + 1 = reps * (n / reps + 1) := by
      calc n + 1 = reps * (n / reps) + (n % reps + 1) := by omega
        _ = reps * (n / reps + 1) := by rw [heq]; ring
    have hdiv : (n + 1) / reps = n / reps + 1 := by
      rw [hn1, Nat.mul_div_cancel_left _ hreps]
    have hmod : (n + 1) % reps = 0 := by
      rw [hn1, Nat.mul_mod_right]
    simp only [hc, if_pos, hdiv, hmod]
    rw [Nat.mod_add_mod]
  · have hlt : n % reps + 1 < reps := by omega
    have huniq : (n + 1) / reps = n / reps ∧ (n + 1) % reps = n % reps + 1 :=
      (Nat.div_mod_unique hreps).mpr (by omega)
    simp [hc, huniq.1, huniq.2]

theorem randomRun_const_closed (s : PlaybackSettings) (len : ℕ) (t0 : ℚ)
    (hp : s.isPlaying = true) (hlen : 0 < len) (hsw : s.subdivision ≠ "2" ∨ s.swing = 50)
    (n : ℕ) :
    randomRun s len t0 n =
      ⟨n / getRepetitionsPerBar s.subdivision % len, n % getRepetitionsPerBar s.subdivision,
        t0 + n * noteInterval s.bpm s.subdivision⟩ := by
  induction n with
  | zero => simp [randomRun]
  | succ n ih =>
    have hreps := getRepetitionsPerBar_pos s.subdivision
    have hadv := noteAdvance_closed (getRepetitionsPerBar s.subdivision) len n hreps
    have hidx : n / getRepetitionsPerBar s.subdivision % len < len := Nat.mod_lt _ hlen
    have hguard : ¬ (s.isPlaying = false ∨ len = 0) := by
      simp [hp]
      omega
    have hswing : ¬ (s.subdivision = "2" ∧ s.swing ≠ 50) := by
      rcases hsw with h | h
      · simp [h]
      · simp [h]
    simp only [randomRun, ih, randomStep, if_neg hguard, if_neg (by omega : ¬ len ≤ n / getRepetitionsPerBar s.subdivision % len), hadv, if_neg hswing]
    simp only [SchedulerState.mk.injEq, true_and, and_true]
    push_cast
    ring

theorem randomStep_at_run (s : PlaybackSettings) (len : ℕ) (t0 : ℚ)
    (hp : s.isPlaying = true) (hlen : 0 < len) (hsw : s.subdivision ≠ "2" ∨ s.swing = 50)
    (n : ℕ) :
    randomStep s len (randomRun s len t0 n) =
      .ok (some (randomRun s len t0 (n + 1), (randomRun s len t0 n).nextNoteTime)) := by
  have hcf := randomRun_const_closed s len t0 hp hlen hsw n
  have hcf1 := randomRun_const_closed s len t0 hp hlen hsw (n + 1)
  have hreps := getRepetitionsPerBar_pos s.subdivision
  have hadv := noteAdvance_closed (getRepetitionsPerBar s.subdivision) len n hreps
  have hidx : n / getRepetitionsPerBar s.subdivision % len < len := Nat.mod_lt _ hlen
  have hguard : ¬ (s.isPlaying = false ∨ len = 0) := by
    simp [hp]
    omega
  have hswing : ¬ (s.subdivision = "2" ∧ s.swing ≠ 50) := by
    rcases hsw with h | h
    · simp [h]
    · simp [h]
  rw [hcf, hcf1]
  simp only [randomStep, if_neg hguard, if_neg (by omega : ¬ len ≤ n / getRepetitionsPerBar s.subdivision % len), hadv, if_neg hswing]
  simp only [Except.ok.injEq, Option.some.injEq, Prod.mk.injEq, SchedulerState.mk.injEq, true_and, and_true]
  push_cast
  ring

theorem succ_mod_div_of_ge (n reps : ℕ) (hreps : 0 < reps) (hc : reps ≤ n % reps + 1) :
    (n + 1) % reps = 0 ∧ (n + 1) / reps = n / reps + 1 := by
  have hr : n % reps < reps := Nat.mod_lt _ hreps
  have hdm : reps * (n / reps) + n % reps = n := Nat.div_add_mod n reps
  have heq : n % reps + 1 = reps := le_antisymm hr hc
  have hn1 : n + 1 = reps * (n / reps + 1) := by
    calc n + 1 = reps * (n / reps) + (n % reps + 1) := by omega
      _ = reps * (n / reps + 1) := by rw [heq]; ring
  constructor
  · rw [hn1, Nat.mul_mod_right]
  · rw [hn1, Nat.mul_div_cancel_left _ hreps]

theorem succ_mod_div_of_lt (n reps : ℕ) (hreps : 0 < reps) (hc : ¬ reps ≤ n % reps + 1) :
    (n + 1) % reps = n % reps + 1 ∧ (n + 1) / reps = n / reps := by
  have hdm : reps * (n / reps) + n % reps = n := Nat.div_add_mod n reps
  have huniq : (n + 1) / reps = n / reps ∧ (n + 1) % reps = n % reps + 1 :=
    (Nat.div_mod_unique hreps).mpr (by omega)
  exact ⟨huniq.2, huniq.1⟩

/-! Live-update and restart wiring of the React effects (claim C4). -/

/-- A live playback parameter a user can change while a mode is playing. -/
inductive PlaybackParam where
  | bpm
  | subdivision
  | swing
deriving DecidableEq, Repr

/-- Dependency lists of the RandomMode effects that stop playback and
restart it after a 50 ms delay (mode-random.tsx lines 51-61 for BPM and
lines 63-73 for subdivision and swing). -/
def randomRestartEffectDeps : List (List PlaybackParam) :=
  [[PlaybackParam.bpm], [PlaybackParam.subdivision, PlaybackParam.swing]]

/-- Dependency lists of the ProgressionsMode restart effects
(mode-progressions.tsx lines 55-65 and 67-77), identical to RandomMode. -/
def progressionsRestartEffectDeps : List (List PlaybackParam) :=
  [[PlaybackParam.bpm], [PlaybackParam.subdivision, PlaybackParam.swing]]

/-- PatternsMode has no restart effect: its single settings effect
(mode-patterns.tsx lines 33-37) only refreshes currentBpmRef,
currentSubdivisionRef and currentSwingRef, which the scheduling loop reads
at every tick. -/
def patternsRestartEffectDeps : List (List PlaybackParam) := []

/-- Whether changing parameter p triggers one of the given stop-and-restart
effects. -/
def restartsOn (effects : List (List PlaybackParam)) (p : PlaybackParam) : Bool :=
  effects.any (fun deps => deps.any (fun d => d = p))

/-- Whether a RandomMode playback-parameter change restarts the loop. -/
def randomModeRestartsOn (p : PlaybackParam) : Bool :=
  restartsOn randomRestartEffectDeps p

/-- Whether a ProgressionsMode playback-parameter change restarts the loop. -/
def progressionsModeRestartsOn (p : PlaybackParam) : Bool :=
  restartsOn progressionsRestartEffectDeps p

/-- Whether a PatternsMode playback-parameter change restarts the loop. -/
def patternsModeRestartsOn (p : PlaybackParam) : Bool :=
  restartsOn patternsRestartEffectDeps p

/-! Metronome click parameters (claim C8). -/

/-- Click frequency of the inline global metronome playBeat
(musical-note-generator.tsx lines 160-190): a fixed 1000 Hz for every beat,
with no accent logic. -/
def mngClickFreq (_beatCount : ℕ) : ℚ := 1000

/-- Click duration of the inline global metronome playBeat: fixed 0.08 s. -/
def mngClickDuration (_beatCount : ℕ) : ℚ := 2/25

/-- Accent decision of the GlobalMetronome playBeat in unnamed part_001
line 64: beats whose index is 0 or 2 within the 4-beat bar are accented. -/
def part001IsAccent (beatCount : ℕ) : Bool :=
  decide (beatCount % 4 = 0 ∨ beatCount % 4 = 2)

/-- Click frequency of part_001 playBeat: 1200 Hz when accented, 800 Hz
otherwise (line 65). -/
def part001ClickFreq (beatCount : ℕ) : ℚ :=
  if part001IsAccent beatCount then 1200 else 800

/-- Click duration of part_001 playBeat: 0.1 s when accented, 0.05 s
otherwise (line 66). -/
def part001ClickDuration (beatCount : ℕ) : ℚ :=
  if part001IsAccent beatCount then 1/10 else 1/20

/-! Claim theorems. -/

/-- C1: the delta between consecutively scheduled event timestamps equals
(60/bpm)/(repetitionsPerBar/4) on every scheduling loop that actually
runs: for every BPM, subdivision, nonempty sequence and tick of the
RandomMode player with swing not applied (swing setting 50), and for
every re-arm of the ProgressionsMode loop, with repetitionsPerBar 4, 8,
12, 16 for subdivision settings 1-4.  The PatternsMode player, however,
can never schedule any event: startPlayback throws on the nonexistent
audioEngine.enablePlayback before its scheduling loop is entered. -/
theorem timing_accuracy_code_bug :
    patternsStartPlayback 4 (some 0) = .error "audioEngine.enablePlayback is not a function" ∧
    (∀ (bpm : ℚ) (subdivision : String) (k n : ℕ) (t0 : ℚ),
      randomPlayTimeAt ⟨true, bpm, subdivision, 50⟩ (k+1) t0 (n+1)
        - randomPlayTimeAt ⟨true, bpm, subdivision, 50⟩ (k+1) t0 n
        = (60 / bpm) / ((getRepetitionsPerBar subdivision : ℚ) / 4)) ∧
    (∀ (bpm swingQ t0 : ℚ) (subdivision : String) (n : ℕ),
      progressionsFireTime ⟨true, bpm, subdivision, swingQ⟩ t0 (n+1)
        - progressionsFireTime ⟨true, bpm, subdivision, swingQ⟩ t0 n
        = (60 / bpm) / ((getRepetitionsPerBar subdivision : ℚ) / 4)) ∧
    getRepetitionsPerBar "1" = 4 ∧ getRepetitionsPerBar "2" = 8 ∧
    getRepetitionsPerBar "3" = 12 ∧ getRepetitionsPerBar "4" = 16 := by
  refine ⟨rfl, ?_, ?_, rfl, rfl, rfl, rfl⟩
  · intro bpm subdivision k n t0
    have hplay : ∀ m, randomPlayTimeAt ⟨true, bpm, subdivision, 50⟩ (k+1) t0 m
        = (randomRun ⟨true, bpm, subdivision, 50⟩ (k+1) t0 m).nextNoteTime := by
      intro m
      unfold randomPlayTimeAt
      rw [randomStep_at_run ⟨true, bpm, subdivision, 50⟩ (k+1) t0 rfl (Nat.succ_pos k)
        (Or.inr rfl) m]
    have hcf : ∀ m, randomRun ⟨true, bpm, subdivision, 50⟩ (k+1) t0 m =
        ⟨m / getRepetitionsPerBar subdivision % (k+1), m % getRepetitionsPerBar subdivision,
          t0 + m * noteInterval bpm subdivision⟩ :=
      randomRun_const_closed ⟨true, bpm, subdivision, 50⟩ (k+1) t0 rfl (Nat.succ_pos k)
        (Or.inr rfl)
    rw [hplay (n+1), hplay n, hcf (n+1), hcf n]
    have hgoal : t0 + ((n + 1 : ℕ) : ℚ) * noteInterval bpm subdivision
        - (t0 + ((n : ℕ) : ℚ) * noteInterval bpm subdivision)
        = (60 / bpm) / ((getRepetitionsPerBar subdivision : ℚ) / 4) := by
      unfold noteInterval
      push_cast
      ring
    exact hgoal
  · intro bpm swingQ t0 subdivision n
    show progressionsFireTime ⟨true, bpm, subdivision, swingQ⟩ t0 n + noteInterval bpm subdivision
        - progressionsFireTime ⟨true, bpm, subdivision, swingQ⟩ t0 n
        = (60 / bpm) / ((getRepetitionsPerBar subdivision : ℚ) / 4)
    unfold noteInterval
    ring

/-- C2: on the RandomMode player - the advance logic that actually runs -
the note index advances exactly when repetitionsPerBar subdivision ticks
have sounded for the current note and wraps modulo the sequence length,
for every BPM, subdivision and nonempty sequence; at bpm 120 and
subdivision 1 the index advances every 4 ticks, 2.0 s apart, and a 4-note
sequence cycles every 8.0 s.  The PatternsMode player's identical advance
code is unreachable: its startPlayback throws on the nonexistent
audioEngine.enablePlayback before any tick fires, so its index never
advances at all. -/
theorem note_advance_code_bug :
    (∀ (bpm : ℚ) (subdivision : String) (k n : ℕ) (t0 : ℚ),
      (randomRun ⟨true, bpm, subdivision, 50⟩ (k+1) t0 n).currentNoteIndex
          = n / getRepetitionsPerBar subdivision % (k+1) ∧
        (randomRun ⟨true, bpm, subdivision, 50⟩ (k+1) t0 n).playbackRepetition
          = n % getRepetitionsPerBar subdivision ∧
        (randomRun ⟨true, bpm, subdivision, 50⟩ (k+1) t0 (n+1)).currentNoteIndex
          = (if (n+1) % getRepetitionsPerBar subdivision = 0
              then ((randomRun ⟨true, bpm, subdivision, 50⟩ (k+1) t0 n).currentNoteIndex + 1) % (k+1)
              else (randomRun ⟨true, bpm, subdivision, 50⟩ (k+1) t0 n).currentNoteIndex)) ∧
    (∀ (n : ℕ) (t0 : ℚ),
      (randomRun ⟨true, 120, "1", 50⟩ 4 t0 n).currentNoteIndex = n / 4 % 4 ∧
        (randomRun ⟨true, 120, "1", 50⟩ 4 t0 n).nextNoteTime = t0 + n * (1/2) ∧
        (randomRun ⟨true, 120, "1", 50⟩ 4 t0 (n+4)).nextNoteTime
          - (randomRun ⟨true, 120, "1", 50⟩ 4 t0 n).nextNoteTime = 2 ∧
        (randomRun ⟨true, 120, "1", 50⟩ 4 t0 (n+16)).currentNoteIndex
          = (randomRun ⟨true, 120, "1", 50⟩ 4 t0 n).currentNoteIndex ∧
        (randomRun ⟨true, 120, "1", 50⟩ 4 t0 (n+16)).nextNoteTime
          - (randomRun ⟨true, 120, "1", 50⟩ 4 t0 n).nextNoteTime = 8) ∧
    patternsStartPlayback 4 (some 0) = .error "audioEngine.enablePlayback is not a function" := by
  refine ⟨?_, ?_, rfl⟩
  · intro bpm subdivision k n t0
    have hreps := getRepetitionsPerBar_pos subdivision
    have hcf : ∀ m, randomRun ⟨true, bpm, subdivision, 50⟩ (k+1) t0 m =
        ⟨m / getRepetitionsPerBar subdivision % (k+1), m % getRepetitionsPerBar subdivision,
          t0 + m * noteInterval bpm subdivision⟩ :=
      randomRun_const_closed ⟨true, bpm, subdivision, 50⟩ (k+1) t0 rfl (Nat.succ_pos k)
        (Or.inr rfl)
    refine ⟨?_, ?_, ?_⟩
    · rw [hcf n]
    · rw [hcf n]
    · rw [hcf (n+1), hcf n]
      by_cases hc : getRepetitionsPerBar subdivision ≤ n % getRepetitionsPerBar subdivision + 1
      · obtain ⟨hm, hd⟩ := succ_mod_div_of_ge n (getRepetitionsPerBar subdivision) hreps hc
        rw [hm, hd]
        simp [Nat.mod_add_mod]
      · obtain ⟨hm, hd⟩ := succ_mod_div_of_lt n (getRepetitionsPerBar subdivision) hreps hc
        rw [hm, hd]
        simp
  · intro n t0
    have hcr : ∀ m, randomRun ⟨true, 120, "1", 50⟩ 4 t0 m =
        ⟨m / getRepetitionsPerBar "1" % 4, m % getRepetitionsPerBar "1",
          t0 + m * noteInterval 120 "1"⟩ :=
      randomRun_const_closed ⟨true, 120, "1", 50⟩ 4 t0 rfl (by norm_num) (Or.inr rfl)
    have hreps1 : getRepetitionsPerBar "1" = 4 := rfl
    have hni : noteInterval 120 "1" = 1/2 := by
      unfold noteInterval
      rw [hreps1]
      norm_num
    refine ⟨?_, ?_, ?_, ?_, ?_⟩
    · rw [hcr n, hreps1]
    · rw [hcr n, hni]
    · rw [hcr (n+4), hcr n, hni]
      have hgoal : t0 + ((n + 4 : ℕ) : ℚ) * (1/2) - (t0 + ((n : ℕ) : ℚ) * (1/2)) = 2 := by
        push_cast
        ring
      exact hgoal
    · rw [hcr (n+16), hcr n, hreps1]
      show (n + 16) / 4 % 4 = n / 4 % 4
      omega
    · rw [hcr (n+16), hcr n, hni]
      have hgoal : t0 + ((n + 16 : ℕ) : ℚ) * (1/2) - (t0 + ((n : ℕ) : ℚ) * (1/2)) = 8 := by
        push_cast
        ring
      exact hgoal

/-- C3: AudioEngine.getSwingDelay implements exactly the claimed swing
rule - with swing enabled an odd-indexed tick gets a delay of one third of
the eighth-note interval and an even-indexed tick gets zero, and with
swing disabled every tick gets zero regardless of index - but neither
swing application path in the players can execute: PatternsMode
startPlayback throws on the nonexistent audioEngine.enablePlayback before
its loop would apply getSwingDelay, and the RandomMode swing branch throws
on the nonexistent AudioEngine.applySwing at the first tick scheduled with
swing engaged. -/
theorem swing_displacement_code_bug :
    (∀ (i : ℕ) (iv : ℚ),
      AudioEngine.getSwingDelay i true iv = (if i % 2 = 1 then iv / 3 else 0)) ∧
    (∀ (i : ℕ) (iv : ℚ), AudioEngine.getSwingDelay i false iv = 0) ∧
    patternsStartPlayback 4 (some 0) = .error "audioEngine.enablePlayback is not a function" ∧
    randomStep ⟨true, 60, "2", 75⟩ 4 ⟨0, 0, 0⟩
      = .error "AudioEngine.applySwing is not a function" := by
  refine ⟨?_, ?_, rfl, ?_⟩
  · intro i iv
    unfold AudioEngine.getSwingDelay
    by_cases hodd : i % 2 = 1 <;> simp [hodd]
  · intro i iv
    simp [AudioEngine.getSwingDelay]
  · rfl

/-- C4 counterexample: changing the subdivision while RandomMode is playing
does trigger a stop-and-restart effect, contradicting the claim that a
subdivision or swing change never restarts the scheduling loop. -/
theorem live_update_counterexample :
    ¬ (randomModeRestartsOn PlaybackParam.subdivision = false) := by
  decide

/-- C4 amended: a BPM, subdivision or swing change while RandomMode or
ProgressionsMode is playing triggers a stop-and-restart effect, so
subdivision and swing changes do cause restarts there; PatternsMode alone
has no restart effect - its settings effect only refreshes the refs its
scheduleNote closure reads - but no live update is observable in patterns
mode, because startPlayback throws on the nonexistent
audioEngine.enablePlayback before any scheduling decision occurs. -/
theorem live_update_amended :
    (∀ p, patternsModeRestartsOn p = false) ∧
    randomModeRestartsOn PlaybackParam.bpm = true ∧
    randomModeRestartsOn PlaybackParam.subdivision = true ∧
    randomModeRestartsOn PlaybackParam.swing = true ∧
    progressionsModeRestartsOn PlaybackParam.bpm = true ∧
    progressionsModeRestartsOn PlaybackParam.subdivision = true ∧
    progressionsModeRestartsOn PlaybackParam.swing = true ∧
    patternsStartPlayback 4 (some 0) = .error "audioEngine.enablePlayback is not a function" := by
  refine ⟨?_, rfl, rfl, rfl, rfl, rfl, rfl, rfl⟩
  intro p
  cases p <;> rfl

/-- C8 counterexample: in the inline global metronome of
musical-note-generator.tsx, the click on beat 1 of the bar is not
higher-pitched than the click on beat 2 - every beat uses the same
1000 Hz click. -/
theorem metronome_accent_counterexample :
    ¬ (mngClickFreq 1 < mngClickFreq 0) := by
  decide

/-- C8 amended: the GlobalMetronome of unnamed part_001 accents beats 1 and
3 of each 4-beat bar (indices 0 and 2 mod 4) with a 1200 Hz, 0.1 s click
versus 800 Hz, 0.05 s on beats 2 and 4; the inline metronome of
musical-note-generator.tsx plays every beat with an identical 1000 Hz,
0.08 s click. -/
theorem metronome_accent_amended (b : ℕ) :
    part001ClickFreq b = (if b % 4 = 0 ∨ b % 4 = 2 then 1200 else 800) ∧
    part001ClickDuration b = (if b % 4 = 0 ∨ b % 4 = 2 then 1/10 else 1/20) ∧
    part001ClickFreq (4*b) > part001ClickFreq (4*b+1) ∧
    part001ClickDuration (4*b) > part001ClickDuration (4*b+1) ∧
    part001ClickFreq (4*b+2) > part001ClickFreq (4*b+3) ∧
    part001ClickDuration (4*b+2) > part001ClickDuration (4*b+3) ∧
    mngClickFreq b = 1000 ∧ mngClickDuration b = 2/25 := by
  have h0 : (4*b) % 4 = 0 := by omega
  have h1 : (4*b+1) % 4 = 1 := by omega
  have h2 : (4*b+2) % 4 = 2 := by omega
  have h3 : (4*b+3) % 4 = 3 := by omega
  refine ⟨?_, ?_, ?_, ?_, ?_, ?_, rfl, rfl⟩
  · simp [part001ClickFreq, part001IsAccent]
  · simp [part001ClickDuration, part001IsAccent]
  · norm_num [part001ClickFreq, part001IsAccent, h0, h1]
  · norm_num [part001ClickDuration, part001IsAccent, h0, h1]
  · norm_num [part001ClickFreq, part001IsAccent, h2, h3]
  · norm_num [part001ClickDuration, part001IsAccent, h2, h3]

/-- C10: getSwingDelay decides swing purely by the truthiness of its swing
argument: interval/3 exactly when the argument is nonzero and the index is
odd, 0 otherwise; in particular 50 behaves like any other nonzero
percentage and 0 disables swing, and only the zero/nonzero distinction of
the magnitude matters. -/
theorem swing_truthiness (i : ℕ) (swing iv : ℚ) :
    getSwingDelayNumeric i swing iv = (if swing ≠ 0 ∧ i % 2 = 1 then iv / 3 else 0) ∧
    getSwingDelayNumeric i 50 iv = (if i % 2 = 1 then iv / 3 else 0) ∧
    getSwingDelayNumeric i 0 iv = 0 ∧
    getSwingDelayNumeric i swing iv
      = getSwingDelayNumeric i (if swing = 0 then 0 else 1) iv := by
  unfold getSwingDelayNumeric jsTruthy AudioEngine.getSwingDelay
  by_cases hs : swing = 0 <;> by_cases hodd : i % 2 = 1 <;>
    simp [hs, hodd] <;> norm_num

/-! Audio engine state: context, worker, scheduled notes and the
activeOscillators voice map (audio-engine.ts lines 1-15). -/

/-- Timbre selector of createOscillator and playNote. -/
inductive WaveType where
  | sine
  | triangle
  | sawtooth
  | square
  | piano
deriving DecidableEq, Repr

/-- A sound-synthesis event handed to the platform: one oscillator started
at startTime with the given frequency, duration and wave type. -/
structure ScheduledSound where
  frequency : ℚ
  startTime : ℚ
  duration : ℚ
  wave : WaveType
deriving DecidableEq, Repr

/-- An entry of the activeOscillators map: the logical key, the stop times
scheduled for the entry's oscillators, the current master gain value
(masterGain.gain.value, as read live during a crossfade) and whether a
cleanup timeout is pending. -/
structure TrackedVoice where
  key : String
  oscStopTimes : List ℚ
  masterGainValue : ℚ
  hasCleanupTimeout : Bool
deriving DecidableEq, Repr

/-- Mutable state of one AudioEngine instance.  audioContext holds the
audio-clock currentTime when initialized, none before initialization. -/
structure AudioEngineState where
  audioContext : Option ℚ
  isPlaying : Bool
  workerRunning : Bool
  scheduledNotes : List (ℚ × ℚ × ℚ)
  activeVoices : List TrackedVoice
deriving DecidableEq, Repr

/-- Map.set on the activeOscillators map: replace any entry under the same
key. -/
def setVoice (voices : List TrackedVoice) (v : TrackedVoice) : List TrackedVoice :=
  v :: voices.filter (fun w => w.key != v.key)

namespace AudioEngine

/-- AudioEngine.stop (audio-engine.ts lines 351-355): clear the playing
flag, stop the timer worker and drop the scheduled-note queue.  The
activeOscillators map is not touched. -/
def stop (e : AudioEngineState) : AudioEngineState :=
  { e with isPlaying := false, workerRunning := false, scheduledNotes := [] }

/-- AudioEngine.createPianoSound (audio-engine.ts lines 81-144): a no-op
before initialization; otherwise emits a fundamental (triangle) plus 2nd
and 3rd harmonic overtones (sine) under one master envelope, and when a
track key is given registers the three oscillators in the voice map with
their stop times at startTime + duration. -/
def createPianoSound (e : AudioEngineState) (frequency startTime duration : ℚ)
    (trackKey : Option String) : Except String (AudioEngineState × List ScheduledSound) :=
  match e.audioContext with
  | none => .ok (e, [])
  | some _ =>
    let sounds : List ScheduledSound :=
      [⟨frequency, startTime, duration, .triangle⟩,
       ⟨frequency * 2, startTime, duration, .sine⟩,
       ⟨frequency * 3, startTime, duration, .sine⟩]
    let e1 := match trackKey with
      | some k =>
        { e with activeVoices :=
            setVoice e.activeVoices (⟨k, [startTime + duration, startTime + duration, startTime + duration], 0, false⟩ : TrackedVoice) }
      | none => e
    .ok (e1, sounds)

/-- AudioEngine.createOscillator (audio-engine.ts lines 146-184): unlike
every other sound entry point, it throws when the audio context is not
initialized; the piano timbre is delegated to createPianoSound; otherwise a
single oscillator with stop time startTime + duration is produced and
optionally registered in the voice map. -/
def createOscillator (e : AudioEngineState) (frequency startTime duration : ℚ)
    (waveType : WaveType) (trackKey : Option String) :
    Except String (AudioEngineState × List ScheduledSound) :=
  match e.audioContext with
  | none => .error "Audio context not initialized"
  | some _ =>
    if waveType = .piano then createPianoSound e frequency startTime duration trackKey
    else
      let e1 := match trackKey with
        | some k =>
          { e with activeVoices :=
              setVoice e.activeVoices (⟨k, [startTime + duration], 0, false⟩ : TrackedVoice) }
        | none => e
      .ok (e1, [⟨frequency, startTime, duration, waveType⟩])

/-- AudioEngine.createClick (audio-engine.ts lines 186-193): a no-op before
initialization; accented clicks are 1000 Hz for 0.1 s, plain clicks 800 Hz
for 0.05 s. -/
def createClick (e : AudioEngineState) (isAccent : Bool) (startTime : ℚ) :
    Except String (AudioEngineState × List ScheduledSound) :=
  match e.audioContext with
  | none => .ok (e, [])
  | some _ =>
    createOscillator e (if isAccent then 1000 else 800) startTime
      (if isAccent then 1/10 else 1/20) .sine none

/-- AudioEngine.playNote (audio-engine.ts lines 195-200): a no-op before
initialization; a start time that is absent or 0 falls back to the current
audio-clock time (the JavaScript expression startTime || currentTime). -/
def playNote (e : AudioEngineState) (frequency duration : ℚ) (startTime : Option ℚ)
    (waveType : WaveType) (trackKey : Option String) :
    Except String (AudioEngineState × List ScheduledSound) :=
  match e.audioContext with
  | none => .ok (e, [])
  | some now =>
    let time := match startTime with
      | some t => if t = 0 then now else t
      | none => now
    createOscillator e frequency time duration waveType trackKey

end AudioEngine

/-! Gain automation for the crossfade (claim C9). -/

/-- Ramp flavor of a Web Audio gain automation segment. -/
inductive RampKind where
  | linear
  | exponential
deriving DecidableEq, Repr

/-- One gain ramp produced by setValueAtTime(v0, t0) followed by a
linearRampToValueAtTime or exponentialRampToValueAtTime call with target
v1 at time t1. -/
structure GainSegment where
  kind : RampKind
  v0 : ℚ
  t0 : ℚ
  v1 : ℚ
  t1 : ℚ
deriving DecidableEq, Repr

/-- Value of the gain at time t within the ramp, following the Web Audio
API automation semantics: linear interpolation for linear ramps and
v0 * (v1/v0)^((t-t0)/(t1-t0)) for exponential ramps. -/
noncomputable def GainSegment.valueAt (seg : GainSegment) (t : ℝ) : ℝ :=
  match seg.kind with
  | .linear =>
    (seg.v0 : ℝ) + ((seg.v1 : ℝ) - (seg.v0 : ℝ)) * ((t - (seg.t0 : ℝ)) / ((seg.t1 : ℝ) - (seg.t0 : ℝ)))
  | .exponential =>
    (seg.v0 : ℝ) * (((seg.v1 : ℝ) / (seg.v0 : ℝ)) ^ ((t - (seg.t0 : ℝ)) / ((seg.t1 : ℝ) - (seg.t0 : ℝ))))

/-- Fade-out ramp installed on the old preview voice by crossfadeToWaveType
(audio-engine.ts lines 218-227): from the gain value read live at call
time, exponentially down to 0.001 over the fade window - or linearly to 0
when the current gain is already at or below 0.001, since exponential
ramps from near zero are degenerate. -/
def crossfadeFadeOutSegment (currentGain now d : ℚ) : GainSegment :=
  if 1/1000 < currentGain then ⟨.exponential, currentGain, now, 1/1000, now + d⟩
  else ⟨.linear, currentGain, now, 0, now + d⟩

/-- Fade-in ramp of the replacement voice (audio-engine.ts lines 263-264
and 317-318): linearly from 0 up to the peak gain over the fade window. -/
def crossfadeFadeInSegment (peak now d : ℚ) : GainSegment :=
  ⟨.linear, 0, now, peak, now + d⟩

/-- Everything crossfadeToWaveType does: the updated engine state, the
fade-out ramp put on the old preview voice, the stop calls issued to the
old voice's oscillators, and the fade-in ramp of the new voice. -/
structure CrossfadeResult where
  engine : AudioEngineState
  oldFadeOut : Option GainSegment
  oldOscStopCalls : List ℚ
  newFadeIn : Option GainSegment
deriving DecidableEq, Repr

namespace AudioEngine

/-- AudioEngine.crossfadeToWaveType (audio-engine.ts lines 203-248): a
no-op before initialization.  Otherwise: if a voice exists under the
preview key, cancel its pending cleanup, install the fade-out ramp from its
live gain value, stop each of its oscillators at now + crossfadeDuration
and remove it from the map synchronously; then start the replacement voice
(three oscillators for piano, one otherwise, stopping at now + 1.0 since
the crossfade variants use duration 1.0) with a linear fade-in to its peak
gain. -/
def crossfadeToWaveType (e : AudioEngineState) (_frequency : ℚ) (newWaveType : WaveType)
    (crossfadeDuration : ℚ) : CrossfadeResult :=
  match e.audioContext with
  | none => ⟨e, none, [], none⟩
  | some currentTime =>
    let existing := e.activeVoices.find? (fun w => w.key == "preview")
    let fadeOut := existing.map
      (fun v => crossfadeFadeOutSegment v.masterGainValue currentTime crossfadeDuration)
    let stops := match existing with
      | some v => v.oscStopTimes.map (fun _ => currentTime + crossfadeDuration)
      | none => []
    let voices1 := match existing with
      | some _ => e.activeVoices.filter (fun w => w.key != "preview")
      | none => e.activeVoices
    let peak : ℚ := if newWaveType = .piano then 4/10 else 3/10
    let newStops : List ℚ :=
      if newWaveType = .piano then [currentTime + 1, currentTime + 1, currentTime + 1]
      else [currentTime + 1]
    let newVoice : TrackedVoice := ⟨"preview", newStops, 0, true⟩
    ⟨{ e with activeVoices := newVoice :: voices1 }, fadeOut, stops,
      some (crossfadeFadeInSegment peak currentTime crossfadeDuration)⟩

end AudioEngine

/-! Per-mode player state and stop behavior (claims C5 and C6). -/

/-- Per-component state of RandomMode or ProgressionsMode: the pending
playbackTimeoutRef, the mode's audio engine and the displayed index. -/
structure SequencePlayerState where
  playbackTimeout : Option ℕ
  engine : AudioEngineState
  currentIndexState : ℕ
deriving DecidableEq, Repr

/-- Per-component state of PatternsMode, which additionally keeps the
shouldContinuePlaybackRef liveness flag. -/
structure PatternsPlayerState where
  shouldContinuePlayback : Bool
  playbackTimeout : Option ℕ
  engine : AudioEngineState
  currentIndexState : ℕ
deriving DecidableEq, Repr

/-- stopPlayback of PatternsMode (mode-patterns.tsx lines 167-180): clear
the liveness flag, cancel the pending timeout, stop the engine and reset
the displayed index. -/
def patternsStopPlayback (p : PatternsPlayerState) : PatternsPlayerState :=
  ⟨false, none, AudioEngine.stop p.engine, 0⟩

/-- stopPlayback of RandomMode (mode-random.tsx lines 203-210) and
ProgressionsMode (mode-progressions.tsx lines 126-133), whose bodies are
also the bodies of their stopAllAudio handlers: cancel the pending
timeout, stop the engine, reset the index. -/
def sequencePlayerStop (p : SequencePlayerState) : SequencePlayerState :=
  ⟨none, AudioEngine.stop p.engine, 0⟩

/-- Guard at the top of the PatternsMode scheduleNote callback
(mode-patterns.tsx line 116): an in-flight callback runs only while
shouldContinuePlaybackRef holds. -/
def patternsCallbackFires (p : PatternsPlayerState) : Bool :=
  p.shouldContinuePlayback

/-- All oscillators of all tracked voices of the engine have stop times no
later than the given instant - what being force-stopped at that instant
would mean. -/
def voicesForceStoppedAt (e : AudioEngineState) (now : ℚ) : Prop :=
  ∀ v ∈ e.activeVoices, ∀ t ∈ v.oscStopTimes, t ≤ now

instance (e : AudioEngineState) (now : ℚ) : Decidable (voicesForceStoppedAt e now) := by
  unfold voicesForceStoppedAt
  infer_instance

/-- State of the metronome embedded in musical-note-generator.tsx:
metronomeIntervalRef and the displayed beat. -/
structure MetronomeState where
  metronomeInterval : Option ℕ
  currentBeat : ℕ
deriving DecidableEq, Repr

/-- stopMetronomeBeats (musical-note-generator.tsx lines 195-201). -/
def stopMetronomeBeats (_m : MetronomeState) : MetronomeState :=
  ⟨none, 0⟩

/-- The selectable application tabs. -/
inductive AppMode where
  | random
  | progressions
  | patterns
  | glossary
deriving DecidableEq, Repr

/-- Application-level state: the players of the three modes (each with its
own engine), the metronome, the current tab and the isPlaying flags of the
mode settings. -/
structure AppState where
  currentMode : AppMode
  randomPlayer : SequencePlayerState
  progressionsPlayer : SequencePlayerState
  patternsPlayer : PatternsPlayerState
  metronome : MetronomeState
  randomIsPlaying : Bool
  progressionsIsPlaying : Bool
  patternsIsPlaying : Bool
deriving DecidableEq, Repr

/-- Dispatching the stopAllAudio event: window.dispatchEvent runs every
registered handler synchronously before returning.  The handlers are the
stopAllAudio listeners of mode-random.tsx lines 30-37, mode-progressions.tsx
lines 28-35, mode-patterns.tsx lines 41-43 and musical-note-generator.tsx
lines 204-211. -/
def dispatchStopAllAudio (a : AppState) : AppState :=
  { a with
    randomPlayer := sequencePlayerStop a.randomPlayer,
    progressionsPlayer := sequencePlayerStop a.progressionsPlayer,
    patternsPlayer := patternsStopPlayback a.patternsPlayer,
    metronome := stopMetronomeBeats a.metronome }

/-- Steps two and three of switchTab (musical-note-generator.tsx lines
285-300), run after the broadcast returns: stop every mode's engine again,
stop the metronome, switch the tab and clear every isPlaying flag. -/
def switchTabAfterBroadcast (a : AppState) (mode : AppMode) : AppState :=
  { a with
    currentMode := mode,
    randomPlayer := { a.randomPlayer with engine := AudioEngine.stop a.randomPlayer.engine },
    progressionsPlayer := { a.progressionsPlayer with engine := AudioEngine.stop a.progressionsPlayer.engine },
    patternsPlayer := { a.patternsPlayer with engine := AudioEngine.stop a.patternsPlayer.engine },
    metronome := stopMetronomeBeats a.metronome,
    randomIsPlaying := false,
    progressionsIsPlaying := false,
    patternsIsPlaying := false }

/-- switchTab (musical-note-generator.tsx lines 279-301): first the
synchronous stopAllAudio broadcast, then the direct engine stops and state
reset. -/
def switchTab (a : AppState) (mode : AppMode) : AppState :=
  switchTabAfterBroadcast (dispatchStopAllAudio a) mode

/-- An engine that has never been initialized. -/
def uninitializedEngine : AudioEngineState :=
  ⟨none, false, false, [], []⟩

/-- A PatternsMode player captured mid-playback, with one tracked voice
whose oscillator is scheduled to stop at time 100. -/
def examplePatternsPlayer : PatternsPlayerState :=
  ⟨true, some 7, ⟨some 0, true, true, [], [⟨"patterns-note", [100], 3/10, false⟩]⟩, 2⟩

/-- An application state captured mid-playback in random mode, with one
tracked voice in the random player's engine scheduled to stop at 100. -/
def exampleApp : AppState :=
  ⟨AppMode.random,
   ⟨some 3, ⟨some 0, true, true, [], [⟨"random-note", [100], 3/10, false⟩]⟩, 1⟩,
   ⟨none, ⟨some 0, false, false, [], []⟩, 0⟩,
   ⟨true, some 9, ⟨some 0, true, true, [], []⟩, 0⟩,
   ⟨some 4, 2⟩, true, false, true⟩

/-- An initialized engine holding an active preview voice at gain 0.4
whose oscillator is scheduled to stop at time 5. -/
def exampleCrossfadeEngine : AudioEngineState :=
  ⟨some 0, false, false, [], [⟨"preview", [5], 2/5, true⟩]⟩

/-! Helper lemmas for ramp monotonicity. -/

theorem rpow_ramp_le (a b s1 s2 : ℝ) (ha : 0 ≤ a) (hb0 : 0 < b) (hb1 : b ≤ 1)
    (hs : s1 ≤ s2) : a * b ^ s2 ≤ a * b ^ s1 :=
  mul_le_mul_of_nonneg_left (Real.rpow_le_rpow_of_exponent_ge hb0 hb1 hs) ha

theorem linear_ramp_le (v0 v1 s1 s2 : ℝ) (hs : s1 ≤ s2) (hv : v1 ≤ v0) :
    v0 + (v1 - v0) * s2 ≤ v0 + (v1 - v0) * s1 := by
  nlinarith [mul_le_mul_of_nonneg_left hs (sub_nonneg.mpr hv)]

theorem linear_ramp_ge (v0 v1 s1 s2 : ℝ) (hs : s1 ≤ s2) (hv : v0 ≤ v1) :
    v0 + (v1 - v0) * s1 ≤ v0 + (v1 - v0) * s2 := by
  nlinarith [mul_le_mul_of_nonneg_left hs (sub_nonneg.mpr hv)]

/-- C5 counterexample: stopping the PatternsMode player does not
force-stop the active voices of its engine - a voice whose oscillator was
scheduled to stop at time 100 is still scheduled to stop at 100, not at
the stop instant 0. -/
theorem stop_contract_counterexample :
    ¬ voicesForceStoppedAt (patternsStopPlayback examplePatternsPlayer).engine 0 := by
  decide

/-- C5 amended: stopPlayback clears the liveness flag (so an in-flight
scheduling callback becomes a no-op), cancels the pending timer, resets
the cursor and stops the engine's scheduler (playing flag, worker and
scheduled-note queue) before returning - so an immediate restart cannot
produce two overlapping loops - but it leaves the engine's active voices
untouched: already-triggered sounds keep their envelope stop times rather
than being force-stopped.  The same holds for the RandomMode and
ProgressionsMode stopPlayback, which have no liveness flag. -/
theorem stop_contract_amended (p : PatternsPlayerState) (q : SequencePlayerState) :
    (patternsStopPlayback p).shouldContinuePlayback = false ∧
    (patternsStopPlayback p).playbackTimeout = none ∧
    (patternsStopPlayback p).currentIndexState = 0 ∧
    (patternsStopPlayback p).engine.isPlaying = false ∧
    (patternsStopPlayback p).engine.workerRunning = false ∧
    (patternsStopPlayback p).engine.scheduledNotes = [] ∧
    (patternsStopPlayback p).engine.activeVoices = p.engine.activeVoices ∧
    patternsCallbackFires (patternsStopPlayback p) = false ∧
    (sequencePlayerStop q).playbackTimeout = none ∧
    (sequencePlayerStop q).currentIndexState = 0 ∧
    (sequencePlayerStop q).engine.isPlaying = false ∧
    (sequencePlayerStop q).engine.scheduledNotes = [] ∧
    (sequencePlayerStop q).engine.activeVoices = q.engine.activeVoices :=
  ⟨rfl, rfl, rfl, rfl, rfl, rfl, rfl, rfl, rfl, rfl, rfl, rfl, rfl⟩

/-- C6 counterexample: even after the stopAllAudio broadcast and the rest
of switchTab, an already-triggered voice of the random player is not
force-stopped: its oscillator keeps its scheduled stop time 100. -/
theorem broadcast_stop_counterexample :
    ¬ voicesForceStoppedAt (switchTab exampleApp AppMode.patterns).randomPlayer.engine 0 := by
  decide

/-- C6 amended: switchTab first dispatches the stopAllAudio event, whose
handlers run synchronously and already clear every player's pending timer,
the patterns liveness flag and the metronome timer before the caller
proceeds; the subsequent direct engine stops and state reset leave every
timer cleared, every scheduler stopped, every cursor reset and every
isPlaying flag false, so no orphaned timer can schedule further audio -
but active voices are not force-stopped (see C5). -/
theorem broadcast_stop_amended (a : AppState) (mode : AppMode) :
    switchTab a mode = switchTabAfterBroadcast (dispatchStopAllAudio a) mode ∧
    (dispatchStopAllAudio a).randomPlayer.playbackTimeout = none ∧
    (dispatchStopAllAudio a).progressionsPlayer.playbackTimeout = none ∧
    (dispatchStopAllAudio a).patternsPlayer.playbackTimeout = none ∧
    (dispatchStopAllAudio a).patternsPlayer.shouldContinuePlayback = false ∧
    (dispatchStopAllAudio a).metronome.metronomeInterval = none ∧
    (switchTab a mode).randomPlayer.playbackTimeout = none ∧
    (switchTab a mode).progressionsPlayer.playbackTimeout = none ∧
    (switchTab a mode).patternsPlayer.playbackTimeout = none ∧
    (switchTab a mode).patternsPlayer.shouldContinuePlayback = false ∧
    (switchTab a mode).metronome.metronomeInterval = none ∧
    (switchTab a mode).metronome.currentBeat = 0 ∧
    (switchTab a mode).randomPlayer.engine.isPlaying = false ∧
    (switchTab a mode).progressionsPlayer.engine.isPlaying = false ∧
    (switchTab a mode).patternsPlayer.engine.isPlaying = false ∧
    (switchTab a mode).randomPlayer.currentIndexState = 0 ∧
    (switchTab a mode).progressionsPlayer.currentIndexState = 0 ∧
    (switchTab a mode).patternsPlayer.currentIndexState = 0 ∧
    (switchTab a mode).randomIsPlaying = false ∧
    (switchTab a mode).progressionsIsPlaying = false ∧
    (switchTab a mode).patternsIsPlaying = false ∧
    (switchTab a mode).currentMode = mode :=
  ⟨rfl, rfl, rfl, rfl, rfl, rfl, rfl, rfl, rfl, rfl, rfl, rfl, rfl, rfl, rfl, rfl, rfl,
    rfl, rfl, rfl, rfl, rfl⟩

/-- C7 counterexample: createOscillator invoked before the audio context
exists is not a silent no-op - it throws. -/
theorem uninit_sound_ops_counterexample :
    ¬ (∃ r, AudioEngine.createOscillator uninitializedEngine 440 0 (1/10) WaveType.sine none
        = .ok r) := by
  rintro ⟨r, hr⟩
  simp [AudioEngine.createOscillator, uninitializedEngine] at hr

/-- C7 amended: playNote, createPianoSound, createClick and
crossfadeToWaveType invoked before the audio context has been initialized
are silent no-ops that produce no sound and do not throw; createOscillator
alone throws the Audio-context-not-initialized error when invoked directly
(its callers guard the call behind their own context check). -/
theorem uninit_sound_ops_amended (e : AudioEngineState) (freq dur start d : ℚ)
    (startOpt : Option ℚ) (wave : WaveType) (key : Option String) (isAccent : Bool)
    (h : e.audioContext = none) :
    AudioEngine.playNote e freq dur startOpt wave key = .ok (e, []) ∧
    AudioEngine.createPianoSound e freq start dur key = .ok (e, []) ∧
    AudioEngine.createClick e isAccent start = .ok (e, []) ∧
    AudioEngine.crossfadeToWaveType e freq wave d = ⟨e, none, [], none⟩ ∧
    AudioEngine.createOscillator e freq start dur wave key
      = .error "Audio context not initialized" := by
  refine ⟨?_, ?_, ?_, ?_, ?_⟩ <;>
    simp [AudioEngine.playNote, AudioEngine.createPianoSound, AudioEngine.createClick,
      AudioEngine.crossfadeToWaveType, AudioEngine.createOscillator, h]

/-- Witness for C7 at a concrete uninitialized engine. -/
theorem uninit_sound_ops_witness :
    AudioEngine.playNote uninitializedEngine 440 (1/2) none WaveType.sine none
      = .ok (uninitializedEngine, []) :=
  (uninit_sound_ops_amended uninitializedEngine 440 (1/2) 0 (3/10) none WaveType.sine
    none false rfl).1

/-- C9: over the crossfade window, the old preview voice's master gain
ramp is non-increasing and the new voice's gain ramp is non-decreasing,
and every oscillator of the old voice receives a stop call at
now + fadeDuration; the fade-out ramp is exponential from the live gain
down to 0.001, or linear to 0 when the live gain is already at or below
0.001. -/
theorem crossfade_monotonicity (g peak nowq d : ℚ) (t t2 : ℝ)
    (e : AudioEngineState) (v : TrackedVoice) (freq : ℚ) (wave : WaveType)
    (hg : 0 ≤ g) (hp : 0 ≤ peak) (hd : 0 < d)
    (ht0 : (nowq : ℝ) ≤ t) (ht : t ≤ t2) (ht2 : t2 ≤ (nowq : ℝ) + (d : ℝ))
    (hctx : e.audioContext = some nowq)
    (hfind : e.activeVoices.find? (fun w => w.key == "preview") = some v) :
    (crossfadeFadeOutSegment g nowq d).valueAt t2 ≤ (crossfadeFadeOutSegment g nowq d).valueAt t ∧
    (crossfadeFadeInSegment peak nowq d).valueAt t ≤ (crossfadeFadeInSegment peak nowq d).valueAt t2 ∧
    (AudioEngine.crossfadeToWaveType e freq wave d).oldOscStopCalls
      = v.oscStopTimes.map (fun _ => nowq + d) ∧
    (∀ sc ∈ (AudioEngine.crossfadeToWaveType e freq wave d).oldOscStopCalls, sc = nowq + d) ∧
    (AudioEngine.crossfadeToWaveType e freq wave d).oldFadeOut
      = some (crossfadeFadeOutSegment v.masterGainValue nowq d) := by
  have hdR : (0:ℝ) < (d:ℝ) := by exact_mod_cast hd
  have hgR : (0:ℝ) ≤ (g:ℝ) := by exact_mod_cast hg
  have hpR : (0:ℝ) ≤ (peak:ℝ) := by exact_mod_cast hp
  have hsle : (t - (nowq:ℝ)) / ((nowq:ℝ) + (d:ℝ) - (nowq:ℝ))
      ≤ (t2 - (nowq:ℝ)) / ((nowq:ℝ) + (d:ℝ) - (nowq:ℝ)) := by
    rw [show (nowq:ℝ) + (d:ℝ) - (nowq:ℝ) = (d:ℝ) from by ring]
    exact (div_le_div_right hdR).mpr (by linarith)
  have hstops : (AudioEngine.crossfadeToWaveType e freq wave d).oldOscStopCalls
      = v.oscStopTimes.map (fun _ => nowq + d) := by
    simp [AudioEngine.crossfadeToWaveType, hctx, hfind]
  refine ⟨?_, ?_, hstops, ?_, ?_⟩
  · unfold crossfadeFadeOutSegment
    by_cases hge : 1/1000 < g
    · have hgeq : ((1/1000 : ℚ) : ℝ) < ((g : ℚ) : ℝ) := Rat.cast_lt.mpr hge
      have hge' : (1:ℝ)/1000 < (g:ℝ) := by push_cast at hgeq; exact hgeq
      have hgpos : (0:ℝ) < (g:ℝ) := lt_trans (by norm_num) hge'
      simp only [if_pos hge, GainSegment.valueAt]
      push_cast
      exact rpow_ramp_le (g:ℝ) ((1:ℝ)/1000 / (g:ℝ)) _ _ hgR
        (div_pos (by norm_num) hgpos) ((div_le_one hgpos).mpr (le_of_lt hge')) hsle
    · simp only [if_neg hge, GainSegment.valueAt]
      push_cast
      exact linear_ramp_le (g:ℝ) 0 _ _ hsle hgR
  · unfold crossfadeFadeInSegment
    simp only [GainSegment.valueAt]
    push_cast
    exact linear_ramp_ge 0 (peak:ℝ) _ _ hsle hpR
  · intro sc hsc
    rw [hstops] at hsc
    obtain ⟨x, _, heq⟩ := List.mem_map.mp hsc
    exact heq.symm
  · simp [AudioEngine.crossfadeToWaveType, hctx, hfind]

/-- Witness for C9 at a concrete engine holding a preview voice. -/
theorem crossfade_monotonicity_witness :
    (AudioEngine.crossfadeToWaveType exampleCrossfadeEngine 440 WaveType.sine (3/10)).oldOscStopCalls
      = ([5] : List ℚ).map (fun _ => (0:ℚ) + 3/10) :=
  (crossfade_monotonicity (2/5) (3/10) 0 (3/10) 0 (3/10) exampleCrossfadeEngine
    ⟨"preview", [5], 2/5, true⟩ 440 WaveType.sine
    (by norm_num) (by norm_num) (by norm_num) (by norm_num) (by norm_num)
    (by push_cast; norm_num) rfl rfl).2.2.1

end NoteForge
